import Mathlib

set_option autoImplicit false

/-!
Verification development for the APIDistribution gas-faucet service.

The embedded core is `BlockchainService.distributeGas` (src/unnamed/part_002,
lines 86–220) together with the error taxonomy of src/src/utils/errors.ts,
`BlockchainService.getGasPrice` (part_002 lines 256–264) and the amount bound of
`gasDistributionSchema` (src/src/middleware/validation.middleware.ts lines 31–55).

Remote-ledger interactions (provider.getBalance, provider.getFeeData,
wallet.sendTransaction, tx.wait) are modelled by an execution oracle `Chain`
fixing the response of each call in one run; `distributeGas` is then a pure
function of the configuration, the oracle and the arguments, returning the
outcome together with the ordered list of network round-trips issued.
ethers amounts are `bigint`, embedded as `Int`.
-/

namespace APIDistribution

/-- Wei amounts: ethers `bigint` (arbitrary precision, signed). -/
abbrev Wei := Int

/-! ## Amount codec: ethers v6 parseEther / formatEther -/

/-- Decimal value of a list of digit characters; `none` when a non-digit occurs.
The empty list yields `some 0` (the regex groups below may be empty; a separate
check demands at least one digit overall). -/
def digitsVal (cs : List Char) : Option Nat :=
  cs.foldl
    (fun acc c =>
      match acc with
      | none => none
      | some n => if c.isDigit then some (10 * n + (c.toNat - 48)) else none)
    (some 0)

/-- Split a character list at the first dot: whole part and, when a dot is
present, everything after it. -/
def splitDot : List Char → List Char × Option (List Char)
  | [] => ([], none)
  | c :: rest =>
    if c = '.' then ([], some rest)
    else
      let (w, f) := splitDot rest
      (c :: w, f)

/-- ethers v6 `parseUnits(value, 18)` = `FixedNumber.fromString(value,
(decimals 18, width 512)).value`: the string must match the pattern
`(-?)([0-9]*)(.?)([0-9]*)` with at least one digit and at most 18 fractional
digits; the result is `sign * (whole * 10^18 + frac padded to 18 digits)`.
(The width-512 overflow assertion is astronomically far from any value in this
development and is not modelled.)  `none` embeds the thrown
`invalid FixedNumber string value` / `too many decimals` argument errors. -/
def parseUnits18 (s : String) : Option Wei :=
  let cs := s.data
  let signBody : Bool × List Char :=
    match cs with
    | '-' :: rest => (true, rest)
    | _ => (false, cs)
  let (wholeCs, fracPart) := splitDot signBody.2
  let fracCs := fracPart.getD []
  match digitsVal wholeCs, digitsVal fracCs with
  | some w, some f =>
    if wholeCs.length + fracCs.length = 0 then none
    else if 18 < fracCs.length then none
    else
      let mag : Nat := w * 10 ^ 18 + f * 10 ^ (18 - fracCs.length)
      some (if signBody.1 then -(mag : Int) else (mag : Int))
  | _, _ => none

/-- ethers `parseEther(value)` = `parseUnits(value, 18)`. -/
def parseEther (s : String) : Option Wei := parseUnits18 s

/-- Strip trailing zero characters. -/
def dropTrailingZeros (cs : List Char) : List Char :=
  (cs.reverse.dropWhile (fun c => c = '0')).reverse

/-- Left-pad a digit list with zeros to 18 characters. -/
def padLeft18 (cs : List Char) : List Char :=
  List.replicate (18 - cs.length) '0' ++ cs

/-- ethers v6 `formatUnits(value, 18)`: decimal string with the point inserted
18 digits from the right, trailing fractional zeros trimmed but at least one
fractional digit kept (so `formatUnits18 (10^18) = "1.0"`). -/
def formatUnits18 (wei : Wei) : String :=
  let sign := if wei < 0 then "-" else ""
  let n := wei.natAbs
  let whole := n / 10 ^ 18
  let frac := n % 10 ^ 18
  let fracCs := dropTrailingZeros (padLeft18 (toString frac).data)
  sign ++ toString whole ++ "." ++ String.mk (if fracCs.isEmpty then ['0'] else fracCs)

/-- ethers `formatEther(value)` = `formatUnits(value, 18)`. -/
def formatEther (wei : Wei) : String := formatUnits18 wei

/-! ## Error taxonomy (src/src/utils/errors.ts) -/

/-- The typed failures `distributeGas` can throw, mirroring the error classes of
src/src/utils/errors.ts that appear in part_002. -/
inductive DistError where
  /-- Constructor for `BlockchainError(message, txHash?)`: extends AppError with statusCode 500. -/
  | blockchain (message : String) (txHash : Option String)
  /-- Constructor for `InsufficientBalanceError(message)`: extends BlockchainError (statusCode 500). -/
  | insufficientBalance (message : String)
  /-- Constructor for `SufficientBalanceError(message, currentBalance, threshold)`: extends
  AppError directly with statusCode 400. -/
  | sufficientBalance (message : String) (currentBalance threshold : String)
  deriving DecidableEq, Repr

/-- The HTTP status code carried by each error class (errors.ts lines 53–90). -/
def DistError.statusCode : DistError → Nat
  | .blockchain _ _ => 500
  | .insufficientBalance _ => 500
  | .sufficientBalance _ _ _ => 400

/-- Test `leadsWith needle hay`: the first list is an initial segment of the second. -/
def leadsWith : List Char → List Char → Bool
  | [], _ => true
  | _ :: _, [] => false
  | a :: as, b :: bs => a = b && leadsWith as bs

/-- Test `occursIn needle hay`: the first list occurs contiguously in the second. -/
def occursIn (needle : List Char) : List Char → Bool
  | [] => needle.isEmpty
  | c :: t => leadsWith needle (c :: t) || occursIn needle t

/-- JS `hay.includes(needle)`. -/
def msgContains (hay needle : String) : Bool :=
  occursIn needle.data hay.data

/-- The catch-block of `distributeGas` (part_002 lines 195–219) applied to a
non-custom Error: `'insufficient funds'` in the message yields
`InsufficientBalanceError()` with its default message, `'network'` yields a
network BlockchainError, anything else the generic unexpected BlockchainError.
Custom errors (already `DistError` values in this embedding) are re-thrown
unchanged and never reach this classifier. -/
def classifyEthersError (msg : String) : DistError :=
  if msgContains msg "insufficient funds" then
    .insufficientBalance "Insufficient balance for gas distribution"
  else if msgContains msg "network" then
    .blockchain "Network error - please try again later" none
  else
    .blockchain "Transaction failed - unexpected error" none

/-- Message of the argument error ethers v6 raises when `parseEther` receives a
malformed decimal string; the offending input is interpolated into the message. -/
def etherParseErrorMessage (s : String) : String :=
  "invalid FixedNumber string value (argument=\"value\", value=\"" ++ s
    ++ "\", code=INVALID_ARGUMENT, version=6.13.1)"

/-- Embedding of `String.toLower` as the character-wise map it is,
stated over the underlying character list so that it evaluates definitionally.
Account addresses are ASCII, where this is exactly JS `toLowerCase()`. -/
def strToLower (s : String) : String := String.mk (s.data.map Char.toLower)

/-! ## Ledger oracle and call trace -/

/-- The fields of an ethers `TransactionReceipt` read by `distributeGas`
(part_002 lines 173–186). `sender` embeds the receipt field named `from`
(a Lean keyword); `status?` is ethers `null | number`. -/
structure Receipt where
  hash : String
  sender : String
  toAddr? : Option String
  gasUsed : Nat
  status? : Option Nat
  blockNumber : Nat
  deriving DecidableEq, Repr

/-- Outcome of `tx.wait()`: rejected with an error, resolved `null`, or resolved
with a receipt. -/
inductive WaitResult where
  | thrown (msg : String)
  | noReceipt
  | confirmed (r : Receipt)
  deriving DecidableEq, Repr

/-- Execution oracle for the remote-ledger calls of one `distributeGas` run:
`balanceOf a` is what `provider.getBalance(a)` does (`Except.error m` embeds a
throw with message `m`), `feeData` is `provider.getFeeData().gasPrice`
(`none` embeds a `null` gas price), `sendTx` is `wallet.sendTransaction`
(ok value = transaction hash), `waitTx` is `tx.wait()`. -/
structure Chain where
  balanceOf : String → Except String Wei
  feeData : Except String (Option Wei)
  sendTx : Except String String
  waitTx : WaitResult

/-- Network round-trips issued by one `distributeGas` call, in order.
`sendTransaction` records the submitted recipient, wei value and gas price
(the gas limit is the constant `21000n` in the source and is not recorded). -/
inductive NetCall where
  | balanceQuery (address : String)
  | feeQuery
  | sendTransaction (toAddr : String) (value gasPrice : Wei)
  | waitReceipt
  deriving DecidableEq, Repr

/-- Record `TransactionInfo` (src/src/types) as assembled at part_002 lines 173–182.
`sender` embeds the field named `from`; the TS `timestamp: Date` (wall clock at
assembly) is not modelled. -/
structure TransactionInfo where
  hash : String
  sender : String
  toAddr : String
  value : String
  gasUsed : String
  status : Bool
  blockNumber : Nat
  deriving DecidableEq, Repr

/-- The configuration values read by `distributeGas` (src/config/env.config:
zod-validated strings; defaults `GAS_AMOUNT = "0.1"`,
`MINIMUM_BALANCE_THRESHOLD = "0.005"`). -/
structure Config where
  GAS_AMOUNT : String
  MINIMUM_BALANCE_THRESHOLD : String
  deriving DecidableEq, Repr

/-- Line 97: `const gasAmount = amount || config.GAS_AMOUNT` — an absent amount
and the falsy empty string both select the configured default. -/
def resolveGasAmount (cfg : Config) (amount : Option String) : String :=
  match amount with
  | none => cfg.GAS_AMOUNT
  | some a => if a = "" then cfg.GAS_AMOUNT else a

/-- Line 102: `config.MINIMUM_BALANCE_THRESHOLD || '0.005'` — the falsy empty
string selects the hardcoded fallback. -/
def resolveThreshold (cfg : Config) : String :=
  if cfg.MINIMUM_BALANCE_THRESHOLD = "" then "0.005" else cfg.MINIMUM_BALANCE_THRESHOLD

/-- Line 152 and line 259: `feeData.gasPrice || ethers.parseUnits('1', 'gwei')`
— a `null` (and the falsy `0n`) gas price falls back to 1 gwei = `10^9` wei. -/
def resolvedGasPrice (feeGasPrice : Option Wei) : Wei :=
  match feeGasPrice with
  | none => 10 ^ 9
  | some g => if g = 0 then 10 ^ 9 else g

/-! ## The distribution engine -/

/-- Embedding of `BlockchainService.distributeGas` (part_002 lines 86–220) from the point
after amount resolution, as a pure function of the resolved decimal amount
string. The ethers address validator is a parameter (`isAddress`; its keccak
checksum logic is not embedded). Returns the outcome paired with the ordered
network-call trace. Error strings are the exact source messages. -/
def distributeGasResolved (cfg : Config) (ch : Chain) (isAddress : String → Bool)
    (walletAddress recipientAddress : String) (gasAmount : String) :
    Except DistError TransactionInfo × List NetCall :=
  -- line 92: if (!this.isValidAddress(recipientAddress)) throw
  if !(isAddress recipientAddress) then
    (.error (.blockchain "Invalid recipient address" none), [])
  else
    -- line 98: const valueInWei = ethers.parseEther(gasAmount)
    match parseEther gasAmount with
    | none =>
      (.error (classifyEthersError (etherParseErrorMessage gasAmount)), [])
    | some valueInWei =>
      -- line 101: await this.getRecipientBalance(recipientAddress)
      match ch.balanceOf recipientAddress with
      | .error _ =>
        (.error (.blockchain "Failed to retrieve recipient balance" none),
         [.balanceQuery recipientAddress])
      | .ok recipientBalance =>
        -- lines 102-103: threshold resolution and parse
        match parseEther (resolveThreshold cfg) with
        | none =>
          (.error (classifyEthersError (etherParseErrorMessage (resolveThreshold cfg))),
           [.balanceQuery recipientAddress])
        | some minimumBalance =>
          -- line 105: if (recipientBalance >= minimumBalance)
          if minimumBalance ≤ recipientBalance then
            (.error (.sufficientBalance
                ("You have enough sFUEL. Current balance: " ++ formatEther recipientBalance
                  ++ " FAIR (minimum required: " ++ resolveThreshold cfg ++ " FAIR)")
                (formatEther recipientBalance) (resolveThreshold cfg)),
             [.balanceQuery recipientAddress])
          else
            -- line 120: await this.getBalance()
            match ch.balanceOf walletAddress with
            | .error _ =>
              (.error (.blockchain "Failed to retrieve wallet balance" none),
               [.balanceQuery recipientAddress, .balanceQuery walletAddress])
            | .ok balance =>
              -- line 121: if (balance < valueInWei)
              if balance < valueInWei then
                (.error (.insufficientBalance
                    ("Insufficient balance. Required: " ++ gasAmount
                      ++ " FAIR, Available: " ++ formatEther balance ++ " FAIR")),
                 [.balanceQuery recipientAddress, .balanceQuery walletAddress])
              -- line 132: case-insensitive self-transfer guard
              else if strToLower recipientAddress = strToLower walletAddress then
                (.error (.blockchain "Cannot distribute gas to the same wallet" none),
                 [.balanceQuery recipientAddress, .balanceQuery walletAddress])
              else
                -- line 151: await this.provider.getFeeData()
                match ch.feeData with
                | .error msg =>
                  (.error (classifyEthersError msg),
                   [.balanceQuery recipientAddress, .balanceQuery walletAddress, .feeQuery])
                | .ok feeGasPrice =>
                  -- lines 152-158: gas price fallback, then sendTransaction
                  match ch.sendTx with
                  | .error msg =>
                    (.error (classifyEthersError msg),
                     [.balanceQuery recipientAddress, .balanceQuery walletAddress, .feeQuery,
                      .sendTransaction recipientAddress valueInWei (resolvedGasPrice feeGasPrice)])
                  | .ok _txHash =>
                    -- line 167: await tx.wait()
                    match ch.waitTx with
                    | .thrown msg =>
                      (.error (classifyEthersError msg),
                       [.balanceQuery recipientAddress, .balanceQuery walletAddress, .feeQuery,
                        .sendTransaction recipientAddress valueInWei (resolvedGasPrice feeGasPrice),
                        .waitReceipt])
                    | .noReceipt =>
                      -- line 170: no receipt
                      (.error (.blockchain "Transaction failed - no receipt" none),
                       [.balanceQuery recipientAddress, .balanceQuery walletAddress, .feeQuery,
                        .sendTransaction recipientAddress valueInWei (resolvedGasPrice feeGasPrice),
                        .waitReceipt])
                    | .confirmed r =>
                      -- lines 173-186: assemble TransactionInfo, throw if status false
                      if !(r.status? == some 1) then
                        (.error (.blockchain "Transaction failed" (some r.hash)),
                         [.balanceQuery recipientAddress, .balanceQuery walletAddress, .feeQuery,
                          .sendTransaction recipientAddress valueInWei (resolvedGasPrice feeGasPrice),
                          .waitReceipt])
                      else
                        (.ok { hash := r.hash
                               sender := r.sender
                               toAddr := r.toAddr?.getD recipientAddress
                               value := toString valueInWei
                               gasUsed := toString r.gasUsed
                               status := r.status? == some 1
                               blockNumber := r.blockNumber },
                         [.balanceQuery recipientAddress, .balanceQuery walletAddress, .feeQuery,
                          .sendTransaction recipientAddress valueInWei (resolvedGasPrice feeGasPrice),
                          .waitReceipt])

/-- Embedding of `BlockchainService.distributeGas(recipientAddress, amount?)`: amount
resolution (line 97) followed by the resolved pipeline. -/
def distributeGas (cfg : Config) (ch : Chain) (isAddress : String → Bool)
    (walletAddress recipientAddress : String) (amount : Option String) :
    Except DistError TransactionInfo × List NetCall :=
  distributeGasResolved cfg ch isAddress walletAddress recipientAddress
    (resolveGasAmount cfg amount)

/-- Embedding of `BlockchainService.getGasPrice` (part_002 lines 256–264): the fee-data gas
price with the 1 gwei fallback; a throw from `getFeeData` is caught and
re-thrown as `BlockchainError('Failed to retrieve gas price')`. -/
def getGasPrice (ch : Chain) : Except DistError Wei :=
  match ch.feeData with
  | .error _ => .error (.blockchain "Failed to retrieve gas price" none)
  | .ok feeGasPrice => .ok (resolvedGasPrice feeGasPrice)

/-! ## Upstream schema bound (validation.middleware.ts lines 31–55) -/

/-- Digits taken from the front of a character list. -/
def takeDigits : List Char → List Char
  | [] => []
  | c :: rest => if c.isDigit then c :: takeDigits rest else []

/-- Exact-rational model of JS `parseFloat` as applied by
`gasDistributionSchema`: optional sign, then the longest decimal-numeral
prefix (digits, optionally a dot and more digits); `none` embeds `NaN` (no
numeral prefix). Exponent forms, `Infinity` and leading whitespace are not
modelled, and binary64 rounding is not modelled — the schema facts proved below
apply it only to short numerals on which `parseFloat` is exact. -/
def parseFloatQ (s : String) : Option ℚ :=
  let cs := s.data
  let signBody : Bool × List Char :=
    match cs with
    | '-' :: rest => (true, rest)
    | '+' :: rest => (false, rest)
    | _ => (false, cs)
  let intDs := takeDigits signBody.2
  let rest := signBody.2.drop intDs.length
  let fracDs : List Char :=
    match rest with
    | '.' :: r2 => takeDigits r2
    | _ => []
  if intDs.length + fracDs.length = 0 then none
  else
    let w : Nat := (digitsVal intDs).getD 0
    let f : Nat := (digitsVal fracDs).getD 0
    let q : ℚ := (w : ℚ) + (f : ℚ) / ((10 : ℚ) ^ fracDs.length)
    some (if signBody.1 then -q else q)

/-- The `amount` refine of `gasDistributionSchema` (validation.middleware.ts
lines 37–55): `if (!val) return true;` then `parsed > 0 && parsed <= 10`.
`parseFloat` never throws, so the catch branch is dead; a `NaN` result fails
both comparisons. -/
def gasAmountCheck (val : Option String) : Bool :=
  match val with
  | none => true
  | some v =>
    if v = "" then true
    else
      match parseFloatQ v with
      | none => false
      | some q => decide (0 < q ∧ q ≤ 10)

/-! ## Concrete test fixtures -/

/-- A lowercase hex account address used as the recipient in witnesses. -/
def addrA : String := "0xaaaaaaaaaaaaaaaaaaaaaaaaaaaaaaaaaaaaaaaa"

/-- A lowercase hex account address used as the wallet in witnesses. -/
def addrW : String := "0xbbbbbbbbbbbbbbbbbbbbbbbbbbbbbbbbbbbbbbbb"

/-- Concrete instance of the ethers address validator for witnesses: accepts
exactly the two fixture addresses (on which it agrees with `ethers.isAddress`,
both being well-formed all-lowercase addresses) and rejects everything else. -/
def isAddressTest (s : String) : Bool := (s = addrA) || (s = addrW)

/-- The configuration defaults recorded in env.config.test.ts. -/
def testCfg : Config := { GAS_AMOUNT := "0.1", MINIMUM_BALANCE_THRESHOLD := "0.005" }

/-- A confirmed receipt with success flag 1, used by witness oracles. -/
def receiptOk : Receipt :=
  { hash := "0xh1", sender := addrW, toAddr? := some addrA,
    gasUsed := 21000, status? := some 1, blockNumber := 7 }

/-- A confirmed receipt with success flag 0 (reverted), used by witness oracles. -/
def receiptBad : Receipt :=
  { hash := "0xh1", sender := addrW, toAddr? := some addrA,
    gasUsed := 21000, status? := some 0, blockNumber := 7 }

/-- Witness oracle: recipient unfunded (0 wei), wallet holds 1 FAIR, `null` gas
price, submission succeeds and the receipt confirms with success flag 1. -/
def chainHappy : Chain :=
  { balanceOf := fun a => if a = addrA then .ok 0 else .ok 1000000000000000000
    feeData := .ok none
    sendTx := .ok "0xh1"
    waitTx := .confirmed receiptOk }

/-- Witness oracle: every balance reads 0.005 FAIR — the exact threshold. -/
def chainFunded : Chain := { chainHappy with balanceOf := fun _ => .ok 5000000000000000 }

/-- Witness oracle: every balance reads 0.002 FAIR. -/
def chainLow : Chain := { chainHappy with balanceOf := fun _ => .ok 2000000000000000 }

/-- Witness oracle: recipient 0 wei, wallet only 0.01 FAIR. -/
def chainPoor : Chain :=
  { chainHappy with balanceOf := fun a => if a = addrA then .ok 0 else .ok 10000000000000000 }

/-- Witness oracle: `tx.wait()` resolves `null`. -/
def chainNoReceipt : Chain := { chainHappy with waitTx := .noReceipt }

/-- Witness oracle: the receipt comes back with success flag 0. -/
def chainReverted : Chain := { chainHappy with waitTx := .confirmed receiptBad }

/-- Witness oracle: recipient 0 wei, wallet 1000 FAIR, non-null gas price. -/
def chainRich : Chain :=
  { chainHappy with
    balanceOf := fun a => if a = addrA then .ok 0 else .ok 1000000000000000000000
    feeData := .ok (some 2000000000) }

/-! ## Execution-observation helpers -/

/-- In the given execution the recipient balance query succeeds and reads
strictly below the parsed threshold. -/
def recipientGateLt (cfg : Config) (ch : Chain) (ra : String) : Bool :=
  match ch.balanceOf ra, parseEther (resolveThreshold cfg) with
  | .ok rb, some thr => rb < thr
  | _, _ => false

/-- In the given execution the recipient balance query succeeds and reads at or
above the parsed threshold (the already-funded case). -/
def recipientFunded (cfg : Config) (ch : Chain) (ra : String) : Bool :=
  match ch.balanceOf ra, parseEther (resolveThreshold cfg) with
  | .ok rb, some thr => thr ≤ rb
  | _, _ => false

/-- In the given execution the wallet balance query succeeds and reads at least
the requested value. -/
def walletGateLe (ch : Chain) (wa : String) (v : Wei) : Bool :=
  match ch.balanceOf wa with
  | .ok wb => v ≤ wb
  | _ => false

/-- In the given execution `tx.wait()` resolves a non-null receipt whose status
flag is 1. -/
def waitConfirmedSuccess (ch : Chain) : Bool :=
  match ch.waitTx with
  | .confirmed r => r.status? == some 1
  | _ => false

/-! ## Claim theorems -/

/-- Claim C1: for every recipient whose observed balance is at least the
configured minimum-balance threshold (equality included, the comparison being
`>=`), `distributeGas` returns the `SufficientBalanceError` carrying the
observed balance (ether-formatted) and the threshold, and the only network call
issued is the recipient balance query — in particular no transaction is ever
submitted. -/
theorem distributeGas_sufficient_recipient (cfg : Config) (ch : Chain)
    (isAddress : String → Bool) (wa ra : String) (amount : Option String)
    (v rb thr : Wei)
    (haddr : isAddress ra = true)
    (hamt : parseEther (resolveGasAmount cfg amount) = some v)
    (hbal : ch.balanceOf ra = .ok rb)
    (hthr : parseEther (resolveThreshold cfg) = some thr)
    (hge : thr ≤ rb) :
    distributeGas cfg ch isAddress wa ra amount =
      (.error (.sufficientBalance
          ("You have enough sFUEL. Current balance: " ++ formatEther rb
            ++ " FAIR (minimum required: " ++ resolveThreshold cfg ++ " FAIR)")
          (formatEther rb) (resolveThreshold cfg)),
       [.balanceQuery ra]) := by
  unfold distributeGas distributeGasResolved
  simp [haddr, hamt, hbal, hthr, hge]

/-- Witness for C1 at the exact-threshold boundary (spec Scenario B): the
recipient balance is 0.005 FAIR, equal to the threshold, and the call declines
with the formatted balance and threshold after a single balance query. -/
theorem distributeGas_sufficient_recipient_witness :
    (isAddressTest addrA = true
      ∧ parseEther (resolveGasAmount testCfg none) = some 100000000000000000
      ∧ chainFunded.balanceOf addrA = .ok 5000000000000000
      ∧ parseEther (resolveThreshold testCfg) = some 5000000000000000
      ∧ (5000000000000000 : Wei) ≤ 5000000000000000)
    ∧ distributeGas testCfg chainFunded isAddressTest addrW addrA none =
      (.error (.sufficientBalance
          "You have enough sFUEL. Current balance: 0.005 FAIR (minimum required: 0.005 FAIR)"
          "0.005" "0.005"),
       [.balanceQuery addrA]) := by
  refine ⟨⟨by rfl, by rfl, by rfl, by rfl, by decide⟩, ?_⟩
  exact distributeGas_sufficient_recipient testCfg chainFunded isAddressTest addrW addrA none
    100000000000000000 5000000000000000 5000000000000000
    (by rfl) (by rfl) (by rfl) (by rfl) (by decide)

/-- Claim C2: a transfer is submitted only when the recipient balance read
below the threshold and the wallet balance read at least the requested value
(first conjunct); when the recipient is already funded the call short-circuits
after the recipient query alone, so the wallet balance is never queried (second
conjunct); and any wallet balance query is preceded by the recipient balance
query — every trace is empty, the recipient query alone, or starts with the
recipient query followed by the wallet query (third conjunct). -/
theorem distributeGas_gate_order (cfg : Config) (ch : Chain)
    (isAddress : String → Bool) (wa ra : String) (amount : Option String) :
    (∀ v gp : Wei,
        NetCall.sendTransaction ra v gp ∈ (distributeGas cfg ch isAddress wa ra amount).2 →
          parseEther (resolveGasAmount cfg amount) = some v
          ∧ recipientGateLt cfg ch ra = true
          ∧ walletGateLe ch wa v = true)
    ∧ (recipientFunded cfg ch ra = true →
        (distributeGas cfg ch isAddress wa ra amount).2 = []
        ∨ (distributeGas cfg ch isAddress wa ra amount).2 = [NetCall.balanceQuery ra])
    ∧ ((distributeGas cfg ch isAddress wa ra amount).2 = []
        ∨ (distributeGas cfg ch isAddress wa ra amount).2 = [NetCall.balanceQuery ra]
        ∨ (distributeGas cfg ch isAddress wa ra amount).2.take 2
            = [NetCall.balanceQuery ra, NetCall.balanceQuery wa]) := by
  refine ⟨fun v gp hmem => ?_, fun hfunded => ?_, ?_⟩
  · cases haddr : isAddress ra with
    | false => simp [distributeGas, distributeGasResolved, haddr] at hmem
    | true =>
      cases hamt : parseEther (resolveGasAmount cfg amount) with
      | none => simp [distributeGas, distributeGasResolved, haddr, hamt] at hmem
      | some valueInWei =>
        cases hbal : ch.balanceOf ra with
        | error e => simp [distributeGas, distributeGasResolved, haddr, hamt, hbal] at hmem
        | ok rb =>
          cases hthr : parseEther (resolveThreshold cfg) with
          | none => simp [distributeGas, distributeGasResolved, haddr, hamt, hbal, hthr] at hmem
          | some thr =>
            by_cases hge : thr ≤ rb
            · simp [distributeGas, distributeGasResolved, haddr, hamt, hbal, hthr, hge] at hmem
            · cases hwb : ch.balanceOf wa with
              | error e2 =>
                simp [distributeGas, distributeGasResolved, haddr, hamt, hbal, hthr, hge,
                  hwb] at hmem
              | ok wb =>
                by_cases hlt : wb < valueInWei
                · simp [distributeGas, distributeGasResolved, haddr, hamt, hbal, hthr, hge,
                    hwb, hlt] at hmem
                · have key : v = valueInWei →
                      some valueInWei = some v
                      ∧ recipientGateLt cfg ch ra = true
                      ∧ walletGateLe ch wa v = true := by
                    intro hv
                    subst hv
                    refine ⟨rfl, ?_, ?_⟩
                    · simp only [recipientGateLt, hbal, hthr, decide_eq_true_eq]
                      exact lt_of_not_le hge
                    · simp only [walletGateLe, hwb, decide_eq_true_eq]
                      exact le_of_not_lt hlt
                  by_cases hself : strToLower ra = strToLower wa
                  · simp [distributeGas, distributeGasResolved, haddr, hamt, hbal, hthr, hge,
                      hwb, hlt, hself] at hmem
                  · cases hfee : ch.feeData with
                    | error e3 =>
                      simp [distributeGas, distributeGasResolved, haddr, hamt, hbal, hthr,
                        hge, hwb, hlt, hself, hfee] at hmem
                    | ok fd =>
                      cases hsend : ch.sendTx with
                      | error e4 =>
                        simp [distributeGas, distributeGasResolved, haddr, hamt, hbal, hthr,
                          hge, hwb, hlt, hself, hfee, hsend] at hmem
                        exact key hmem.1
                      | ok hsh =>
                        cases hwait : ch.waitTx with
                        | thrown m =>
                          simp [distributeGas, distributeGasResolved, haddr, hamt, hbal,
                            hthr, hge, hwb, hlt, hself, hfee, hsend, hwait] at hmem
                          exact key hmem.1
                        | noReceipt =>
                          simp [distributeGas, distributeGasResolved, haddr, hamt, hbal,
                            hthr, hge, hwb, hlt, hself, hfee, hsend, hwait] at hmem
                          exact key hmem.1
                        | confirmed r =>
                          simp [distributeGas, distributeGasResolved, haddr, hamt, hbal,
                            hthr, hge, hwb, hlt, hself, hfee, hsend, hwait, apply_ite] at hmem
                          exact key hmem.1
  · cases haddr : isAddress ra with
    | false => left; simp [distributeGas, distributeGasResolved, haddr]
    | true =>
      cases hamt : parseEther (resolveGasAmount cfg amount) with
      | none => left; simp [distributeGas, distributeGasResolved, haddr, hamt]
      | some valueInWei =>
        cases hbal : ch.balanceOf ra with
        | error e => right; simp [distributeGas, distributeGasResolved, haddr, hamt, hbal]
        | ok rb =>
          cases hthr : parseEther (resolveThreshold cfg) with
          | none => right; simp [distributeGas, distributeGasResolved, haddr, hamt, hbal, hthr]
          | some thr =>
            have hge : thr ≤ rb := by
              simpa [recipientFunded, hbal, hthr] using hfunded
            right
            simp [distributeGas, distributeGasResolved, haddr, hamt, hbal, hthr, hge]
  · cases haddr : isAddress ra with
    | false => left; simp [distributeGas, distributeGasResolved, haddr]
    | true =>
      cases hamt : parseEther (resolveGasAmount cfg amount) with
      | none => left; simp [distributeGas, distributeGasResolved, haddr, hamt]
      | some valueInWei =>
        cases hbal : ch.balanceOf ra with
        | error e =>
          right; left; simp [distributeGas, distributeGasResolved, haddr, hamt, hbal]
        | ok rb =>
          cases hthr : parseEther (resolveThreshold cfg) with
          | none =>
            right; left; simp [distributeGas, distributeGasResolved, haddr, hamt, hbal, hthr]
          | some thr =>
            by_cases hge : thr ≤ rb
            · right; left
              simp [distributeGas, distributeGasResolved, haddr, hamt, hbal, hthr, hge]
            · cases hwb : ch.balanceOf wa with
              | error e2 =>
                right; right
                simp [distributeGas, distributeGasResolved, haddr, hamt, hbal, hthr, hge, hwb]
              | ok wb =>
                by_cases hlt : wb < valueInWei
                · right; right
                  simp [distributeGas, distributeGasResolved, haddr, hamt, hbal, hthr, hge,
                    hwb, hlt]
                · by_cases hself : strToLower ra = strToLower wa
                  · right; right
                    simp [distributeGas, distributeGasResolved, haddr, hamt, hbal, hthr, hge,
                      hwb, hlt, hself]
                  · cases hfee : ch.feeData with
                    | error e3 =>
                      right; right
                      simp [distributeGas, distributeGasResolved, haddr, hamt, hbal, hthr,
                        hge, hwb, hlt, hself, hfee]
                    | ok fd =>
                      cases hsend : ch.sendTx with
                      | error e4 =>
                        right; right
                        simp [distributeGas, distributeGasResolved, haddr, hamt, hbal, hthr,
                          hge, hwb, hlt, hself, hfee, hsend]
                      | ok hsh =>
                        cases hwait : ch.waitTx with
                        | thrown m =>
                          right; right
                          simp [distributeGas, distributeGasResolved, haddr, hamt, hbal,
                            hthr, hge, hwb, hlt, hself, hfee, hsend, hwait]
                        | noReceipt =>
                          right; right
                          simp [distributeGas, distributeGasResolved, haddr, hamt, hbal,
                            hthr, hge, hwb, hlt, hself, hfee, hsend, hwait]
                        | confirmed r =>
                          right; right
                          simp [distributeGas, distributeGasResolved, haddr, hamt, hbal,
                            hthr, hge, hwb, hlt, hself, hfee, hsend, hwait, apply_ite]

/-- Witness for C2 on the happy-path execution: the submission entry is in the
trace with the default amount 0.1 FAIR and the 1 gwei fallback price, and the
theorem yields the parsed amount and both passed gates. -/
theorem distributeGas_gate_order_witness :
    parseEther (resolveGasAmount testCfg none) = some 100000000000000000
    ∧ recipientGateLt testCfg chainHappy addrA = true
    ∧ walletGateLe chainHappy addrW 100000000000000000 = true :=
  (distributeGas_gate_order testCfg chainHappy isAddressTest addrW addrA none).1
    100000000000000000 1000000000 (by
      have h : (distributeGas testCfg chainHappy isAddressTest addrW addrA none).2 =
          [NetCall.balanceQuery addrA, NetCall.balanceQuery addrW, NetCall.feeQuery,
           NetCall.sendTransaction addrA 100000000000000000 1000000000,
           NetCall.waitReceipt] := rfl
      rw [h]
      simp)

/-- Claim C3: whenever the recipient balance reads strictly below the threshold
and the wallet balance reads strictly below the requested value, `distributeGas`
returns the `InsufficientBalanceError` whose message carries the requested
amount and the formatted wallet balance, and the trace holds exactly the two
balance queries — no transaction is submitted. This local check ignores fee
cost (the comparison is against the bare value). -/
theorem distributeGas_insufficient_wallet (cfg : Config) (ch : Chain)
    (isAddress : String → Bool) (wa ra : String) (amount : Option String)
    (v rb thr wb : Wei)
    (haddr : isAddress ra = true)
    (hamt : parseEther (resolveGasAmount cfg amount) = some v)
    (hbal : ch.balanceOf ra = .ok rb)
    (hthr : parseEther (resolveThreshold cfg) = some thr)
    (hlt : rb < thr)
    (hwb : ch.balanceOf wa = .ok wb)
    (hw : wb < v) :
    distributeGas cfg ch isAddress wa ra amount =
      (.error (.insufficientBalance
          ("Insufficient balance. Required: " ++ resolveGasAmount cfg amount
            ++ " FAIR, Available: " ++ formatEther wb ++ " FAIR")),
       [.balanceQuery ra, .balanceQuery wa]) := by
  unfold distributeGas distributeGasResolved
  simp [haddr, hamt, hbal, hthr, not_le_of_lt hlt, hwb, hw]

/-- Witness for C3: recipient at 0 wei, wallet at 0.01 FAIR, default amount
0.1 FAIR — the call fails with the interpolated insufficient-balance message
after exactly the two balance queries. -/
theorem distributeGas_insufficient_wallet_witness :
    (isAddressTest addrA = true
      ∧ parseEther (resolveGasAmount testCfg none) = some 100000000000000000
      ∧ chainPoor.balanceOf addrA = .ok 0
      ∧ parseEther (resolveThreshold testCfg) = some 5000000000000000
      ∧ (0 : Wei) < 5000000000000000
      ∧ chainPoor.balanceOf addrW = .ok 10000000000000000
      ∧ (10000000000000000 : Wei) < 100000000000000000)
    ∧ distributeGas testCfg chainPoor isAddressTest addrW addrA none =
      (.error (.insufficientBalance
          "Insufficient balance. Required: 0.1 FAIR, Available: 0.01 FAIR"),
       [.balanceQuery addrA, .balanceQuery addrW]) := by
  refine ⟨⟨by rfl, by rfl, by rfl, by rfl, by decide, by rfl, by decide⟩, ?_⟩
  exact distributeGas_insufficient_wallet testCfg chainPoor isAddressTest addrW addrA none
    100000000000000000 0 5000000000000000 10000000000000000
    (by rfl) (by rfl) (by rfl) (by rfl) (by decide) (by rfl) (by decide)

/-- Claim C4 counterexample: at this input the recipient equals the wallet
address, yet `distributeGas` issues two balance queries before returning the
self-transfer rejection — not zero network calls — and the rejection is the
statusCode-500 `BlockchainError`, not a 4xx/BadRequest-class failure; moreover
a funded recipient equal to the wallet gets `SufficientBalanceError`, not the
self-transfer rejection, so the guard does not fire regardless of balances. -/
theorem distributeGas_self_transfer_cex :
    distributeGas testCfg chainLow isAddressTest addrW addrW (some "0.001") =
      (.error (.blockchain "Cannot distribute gas to the same wallet" none),
       [.balanceQuery addrW, .balanceQuery addrW])
    ∧ (distributeGas testCfg chainLow isAddressTest addrW addrW (some "0.001")).2 ≠ []
    ∧ (DistError.blockchain "Cannot distribute gas to the same wallet" none).statusCode = 500
    ∧ (distributeGas testCfg chainFunded isAddressTest addrW addrW none).1 =
        .error (.sufficientBalance
          "You have enough sFUEL. Current balance: 0.005 FAIR (minimum required: 0.005 FAIR)"
          "0.005" "0.005")
    := by
  refine ⟨by rfl, by decide, rfl, by rfl⟩

/-- Claim C4 (amended): when the recipient equals the wallet address modulo
case, the self-transfer rejection fires only after the recipient-sufficiency
and wallet-solvency gates both pass: `distributeGas` then returns the
statusCode-500 `BlockchainError('Cannot distribute gas to the same wallet')`
with exactly the two balance queries in the trace — no transaction is
submitted, but two network calls have already been issued. -/
theorem distributeGas_self_transfer (cfg : Config) (ch : Chain)
    (isAddress : String → Bool) (wa ra : String) (amount : Option String)
    (v rb thr wb : Wei)
    (haddr : isAddress ra = true)
    (hamt : parseEther (resolveGasAmount cfg amount) = some v)
    (hbal : ch.balanceOf ra = .ok rb)
    (hthr : parseEther (resolveThreshold cfg) = some thr)
    (hlt : rb < thr)
    (hwb : ch.balanceOf wa = .ok wb)
    (hv : v ≤ wb)
    (hself : strToLower ra = strToLower wa) :
    distributeGas cfg ch isAddress wa ra amount =
      (.error (.blockchain "Cannot distribute gas to the same wallet" none),
       [.balanceQuery ra, .balanceQuery wa])
    ∧ (DistError.blockchain "Cannot distribute gas to the same wallet" none).statusCode = 500
    := by
  refine ⟨?_, rfl⟩
  unfold distributeGas distributeGasResolved
  simp [haddr, hamt, hbal, hthr, not_le_of_lt hlt, hwb, not_lt_of_le hv, hself]

/-- Witness for the amended C4: recipient = wallet, both balances 0.002 FAIR,
requested amount 0.001 FAIR — both gates pass and the self-transfer rejection
follows the two balance queries. -/
theorem distributeGas_self_transfer_witness :
    (isAddressTest addrW = true
      ∧ parseEther (resolveGasAmount testCfg (some "0.001")) = some 1000000000000000
      ∧ chainLow.balanceOf addrW = .ok 2000000000000000
      ∧ parseEther (resolveThreshold testCfg) = some 5000000000000000
      ∧ (2000000000000000 : Wei) < 5000000000000000
      ∧ (1000000000000000 : Wei) ≤ 2000000000000000
      ∧ strToLower addrW = strToLower addrW)
    ∧ (distributeGas testCfg chainLow isAddressTest addrW addrW (some "0.001") =
        (.error (.blockchain "Cannot distribute gas to the same wallet" none),
         [.balanceQuery addrW, .balanceQuery addrW])
      ∧ (DistError.blockchain "Cannot distribute gas to the same wallet" none).statusCode = 500)
    := by
  refine ⟨⟨by rfl, by rfl, by rfl, by rfl, by decide, by decide, rfl⟩, ?_⟩
  exact distributeGas_self_transfer testCfg chainLow isAddressTest addrW addrW (some "0.001")
    1000000000000000 2000000000000000 5000000000000000 2000000000000000
    (by rfl) (by rfl) (by rfl) (by rfl) (by decide) (by rfl) (by decide) rfl

/-- Claim C5 counterexample: at the malformed recipient string "nothex" the
call does issue zero network calls, but the failure is the statusCode-500
`BlockchainError('Invalid recipient address')` — not a 4xx/BadRequest-class
failure as claimed. -/
theorem distributeGas_invalid_address_cex :
    distributeGas testCfg chainHappy isAddressTest addrW "nothex" none =
      (.error (.blockchain "Invalid recipient address" none), [])
    ∧ (DistError.blockchain "Invalid recipient address" none).statusCode = 500
    ∧ (DistError.blockchain "Invalid recipient address" none).statusCode ≠ 400
    := by
  refine ⟨by rfl, rfl, by decide⟩

/-- Claim C5 (amended): for every recipient string the address validator
rejects, `distributeGas` fails with the statusCode-500
`BlockchainError('Invalid recipient address')` and issues zero network calls. -/
theorem distributeGas_invalid_address (cfg : Config) (ch : Chain)
    (isAddress : String → Bool) (wa ra : String) (amount : Option String)
    (h : isAddress ra = false) :
    distributeGas cfg ch isAddress wa ra amount =
      (.error (.blockchain "Invalid recipient address" none), [])
    ∧ (DistError.blockchain "Invalid recipient address" none).statusCode = 500
    := by
  refine ⟨?_, rfl⟩
  unfold distributeGas distributeGasResolved
  simp [h]

/-- Witness for the amended C5 at the concrete malformed string "nothex". -/
theorem distributeGas_invalid_address_witness :
    isAddressTest "nothex" = false
    ∧ (distributeGas testCfg chainHappy isAddressTest addrW "nothex" none =
        (.error (.blockchain "Invalid recipient address" none), [])
      ∧ (DistError.blockchain "Invalid recipient address" none).statusCode = 500)
    := by
  refine ⟨by decide, ?_⟩
  exact distributeGas_invalid_address testCfg chainHappy isAddressTest addrW "nothex" none
    (by decide)

/-- Claim C6: once the pipeline has submitted (all gates passed), the outcome
is classified solely by the confirmation result — a null receipt yields the
no-receipt BlockchainError (no hash attached), a receipt with status flag ≠ 1
yields `BlockchainError('Transaction failed')` carrying that receipt's hash,
and a receipt with status flag 1 yields the success `TransactionInfo`;
moreover, over all executions whatsoever, a success outcome occurs only when
`tx.wait()` returned a non-null receipt with status flag 1. -/
theorem distributeGas_outcome_classification (cfg : Config) (ch : Chain)
    (isAddress : String → Bool) (wa ra : String) (amount : Option String)
    (v rb thr wb : Wei) (fd : Option Wei) (hsh : String)
    (haddr : isAddress ra = true)
    (hamt : parseEther (resolveGasAmount cfg amount) = some v)
    (hbal : ch.balanceOf ra = .ok rb)
    (hthr : parseEther (resolveThreshold cfg) = some thr)
    (hlt : rb < thr)
    (hwb : ch.balanceOf wa = .ok wb)
    (hv : v ≤ wb)
    (hns : ¬ strToLower ra = strToLower wa)
    (hfee : ch.feeData = .ok fd)
    (hsend : ch.sendTx = .ok hsh) :
    (ch.waitTx = .noReceipt →
       (distributeGas cfg ch isAddress wa ra amount).1 =
         .error (.blockchain "Transaction failed - no receipt" none))
    ∧ (∀ r : Receipt, ch.waitTx = .confirmed r → ¬ r.status? = some 1 →
       (distributeGas cfg ch isAddress wa ra amount).1 =
         .error (.blockchain "Transaction failed" (some r.hash)))
    ∧ (∀ r : Receipt, ch.waitTx = .confirmed r → r.status? = some 1 →
       (distributeGas cfg ch isAddress wa ra amount).1 =
         .ok { hash := r.hash, sender := r.sender, toAddr := r.toAddr?.getD ra,
               value := toString v, gasUsed := toString r.gasUsed,
               status := true, blockNumber := r.blockNumber })
    ∧ (∀ (cfg2 : Config) (ch2 : Chain) (isA2 : String → Bool) (wa2 ra2 : String)
         (amount2 : Option String) (info : TransactionInfo),
       (distributeGas cfg2 ch2 isA2 wa2 ra2 amount2).1 = .ok info →
         waitConfirmedSuccess ch2 = true) := by
  refine ⟨fun hwait => ?_, fun r hwait hst => ?_, fun r hwait hst => ?_, ?_⟩
  · unfold distributeGas distributeGasResolved
    simp [haddr, hamt, hbal, hthr, not_le_of_lt hlt, hwb, not_lt_of_le hv, hns, hfee,
      hsend, hwait]
  · unfold distributeGas distributeGasResolved
    simp [haddr, hamt, hbal, hthr, not_le_of_lt hlt, hwb, not_lt_of_le hv, hns, hfee,
      hsend, hwait, hst]
  · unfold distributeGas distributeGasResolved
    simp [haddr, hamt, hbal, hthr, not_le_of_lt hlt, hwb, not_lt_of_le hv, hns, hfee,
      hsend, hwait, hst]
  · intro cfg2 ch2 isA2 wa2 ra2 amount2 info hok
    cases haddr2 : isA2 ra2 with
    | false => simp [distributeGas, distributeGasResolved, haddr2] at hok
    | true =>
      cases hamt2 : parseEther (resolveGasAmount cfg2 amount2) with
      | none => simp [distributeGas, distributeGasResolved, haddr2, hamt2] at hok
      | some v2 =>
        cases hbal2 : ch2.balanceOf ra2 with
        | error e => simp [distributeGas, distributeGasResolved, haddr2, hamt2, hbal2] at hok
        | ok rb2 =>
          cases hthr2 : parseEther (resolveThreshold cfg2) with
          | none =>
            simp [distributeGas, distributeGasResolved, haddr2, hamt2, hbal2, hthr2] at hok
          | some thr2 =>
            by_cases hge2 : thr2 ≤ rb2
            · simp [distributeGas, distributeGasResolved, haddr2, hamt2, hbal2, hthr2,
                hge2] at hok
            · cases hwb2 : ch2.balanceOf wa2 with
              | error e2 =>
                simp [distributeGas, distributeGasResolved, haddr2, hamt2, hbal2, hthr2,
                  hge2, hwb2] at hok
              | ok wb2 =>
                by_cases hlt2 : wb2 < v2
                · simp [distributeGas, distributeGasResolved, haddr2, hamt2, hbal2, hthr2,
                    hge2, hwb2, hlt2] at hok
                · by_cases hself2 : strToLower ra2 = strToLower wa2
                  · simp [distributeGas, distributeGasResolved, haddr2, hamt2, hbal2, hthr2,
                      hge2, hwb2, hlt2, hself2] at hok
                  · cases hfee2 : ch2.feeData with
                    | error e3 =>
                      simp [distributeGas, distributeGasResolved, haddr2, hamt2, hbal2,
                        hthr2, hge2, hwb2, hlt2, hself2, hfee2, classifyEthersError] at hok
                    | ok fd2 =>
                      cases hsend2 : ch2.sendTx with
                      | error e4 =>
                        simp [distributeGas, distributeGasResolved, haddr2, hamt2, hbal2,
                          hthr2, hge2, hwb2, hlt2, hself2, hfee2, hsend2,
                          classifyEthersError] at hok
                      | ok hsh2 =>
                        cases hwait2 : ch2.waitTx with
                        | thrown m =>
                          simp [distributeGas, distributeGasResolved, haddr2, hamt2, hbal2,
                            hthr2, hge2, hwb2, hlt2, hself2, hfee2, hsend2, hwait2,
                            classifyEthersError] at hok
                        | noReceipt =>
                          simp [distributeGas, distributeGasResolved, haddr2, hamt2, hbal2,
                            hthr2, hge2, hwb2, hlt2, hself2, hfee2, hsend2, hwait2] at hok
                        | confirmed r2 =>
                          by_cases hst2 : (r2.status? == some 1) = true
                          · simp [waitConfirmedSuccess, hwait2, hst2]
                          · simp [distributeGas, distributeGasResolved, haddr2, hamt2,
                              hbal2, hthr2, hge2, hwb2, hlt2, hself2, hfee2, hsend2,
                              hwait2, hst2] at hok

/-- Witness for C6 on the happy path (also spec Scenario A): submission with
the default amount confirms with status flag 1 and the call returns the
assembled success record. -/
theorem distributeGas_outcome_classification_witness :
    chainHappy.waitTx = .confirmed receiptOk
    ∧ receiptOk.status? = some 1
    ∧ (distributeGas testCfg chainHappy isAddressTest addrW addrA none).1 =
        .ok { hash := "0xh1", sender := addrW, toAddr := addrA,
              value := "100000000000000000", gasUsed := "21000",
              status := true, blockNumber := 7 } := by
  refine ⟨rfl, rfl, ?_⟩
  exact (distributeGas_outcome_classification testCfg chainHappy isAddressTest addrW addrA
    none 100000000000000000 0 5000000000000000 1000000000000000000 none "0xh1"
    (by rfl) (by rfl) (by rfl) (by rfl) (by decide) (by rfl) (by decide) (by decide)
    (by rfl) (by rfl)).2.2.1 receiptOk rfl rfl

/-- Every classification the catch-block can produce is a 500-class error:
both BlockchainError and InsufficientBalanceError carry statusCode 500, and the
classifier has no 400-class branch. -/
theorem classifyEthersError_statusCode (msg : String) :
    (classifyEthersError msg).statusCode = 500 := by
  unfold classifyEthersError
  split
  · rfl
  · split <;> rfl

/-- Claim C7 counterexample: the unparsable amount "abc" does not produce a
4xx InvalidAmount failure — the ethers parse error falls through to the
generic catch-block and surfaces as the statusCode-500
`BlockchainError('Transaction failed - unexpected error')`. -/
theorem distributeGas_invalid_amount_cex :
    distributeGas testCfg chainHappy isAddressTest addrW addrA (some "abc") =
      (.error (.blockchain "Transaction failed - unexpected error" none), [])
    ∧ (DistError.blockchain "Transaction failed - unexpected error" none).statusCode = 500
    ∧ (DistError.blockchain "Transaction failed - unexpected error" none).statusCode ≠ 400
    := ⟨by rfl, rfl, by decide⟩

/-- Claim C7 (amended): when conversion of the resolved amount string fails,
`distributeGas` fails before any network call with the catch-block
classification of the interpolated ethers parse error — a statusCode-500
failure on every classifier branch, never a 4xx InvalidAmount — and when the
caller supplies no amount the configured default amount is the string
converted. -/
theorem distributeGas_amount_parse_failure (cfg : Config) (ch : Chain)
    (isAddress : String → Bool) (wa ra : String) (amount : Option String)
    (haddr : isAddress ra = true)
    (hamt : parseEther (resolveGasAmount cfg amount) = none) :
    distributeGas cfg ch isAddress wa ra amount =
      (.error (classifyEthersError
          (etherParseErrorMessage (resolveGasAmount cfg amount))), [])
    ∧ (classifyEthersError
          (etherParseErrorMessage (resolveGasAmount cfg amount))).statusCode = 500
    ∧ resolveGasAmount cfg none = cfg.GAS_AMOUNT := by
  refine ⟨?_, classifyEthersError_statusCode _, rfl⟩
  unfold distributeGas distributeGasResolved
  simp [haddr, hamt]

/-- Witness for the amended C7 at the concrete unparsable amount "abc". -/
theorem distributeGas_amount_parse_failure_witness :
    (isAddressTest addrA = true
      ∧ parseEther (resolveGasAmount testCfg (some "abc")) = none)
    ∧ (distributeGas testCfg chainHappy isAddressTest addrW addrA (some "abc") =
        (.error (.blockchain "Transaction failed - unexpected error" none), [])
      ∧ (DistError.blockchain "Transaction failed - unexpected error" none).statusCode = 500
      ∧ resolveGasAmount testCfg none = testCfg.GAS_AMOUNT) := by
  refine ⟨⟨by rfl, by rfl⟩, ?_⟩
  exact distributeGas_amount_parse_failure testCfg chainHappy isAddressTest addrW addrA
    (some "abc") (by rfl) (by rfl)

/-- Claim C8: an absent (null) network gas price never fails fee resolution:
`getGasPrice` returns the hardcoded 1 gwei (10^9 wei) default, and
`distributeGas` under the same condition proceeds to submit with exactly that
gas price. -/
theorem gas_price_absent_default (cfg : Config) (ch : Chain)
    (isAddress : String → Bool) (wa ra : String) (amount : Option String)
    (v rb thr wb : Wei) (hsh : String)
    (hfee : ch.feeData = .ok none)
    (haddr : isAddress ra = true)
    (hamt : parseEther (resolveGasAmount cfg amount) = some v)
    (hbal : ch.balanceOf ra = .ok rb)
    (hthr : parseEther (resolveThreshold cfg) = some thr)
    (hlt : rb < thr)
    (hwb : ch.balanceOf wa = .ok wb)
    (hv : v ≤ wb)
    (hns : ¬ strToLower ra = strToLower wa)
    (hsend : ch.sendTx = .ok hsh) :
    getGasPrice ch = .ok (10 ^ 9)
    ∧ NetCall.sendTransaction ra v (10 ^ 9) ∈
        (distributeGas cfg ch isAddress wa ra amount).2 := by
  constructor
  · unfold getGasPrice
    simp [hfee, resolvedGasPrice]
  · cases hwait : ch.waitTx with
    | thrown m =>
      unfold distributeGas distributeGasResolved
      simp [haddr, hamt, hbal, hthr, not_le_of_lt hlt, hwb, not_lt_of_le hv, hns, hfee,
        hsend, hwait, resolvedGasPrice]
    | noReceipt =>
      unfold distributeGas distributeGasResolved
      simp [haddr, hamt, hbal, hthr, not_le_of_lt hlt, hwb, not_lt_of_le hv, hns, hfee,
        hsend, hwait, resolvedGasPrice]
    | confirmed r =>
      unfold distributeGas distributeGasResolved
      simp [haddr, hamt, hbal, hthr, not_le_of_lt hlt, hwb, not_lt_of_le hv, hns, hfee,
        hsend, hwait, resolvedGasPrice, apply_ite]

/-- Witness for C8: the happy-path oracle reports a null gas price; the
resolved price is the 1 gwei default both in `getGasPrice` and in the submitted
transaction. -/
theorem gas_price_absent_default_witness :
    chainHappy.feeData = .ok none
    ∧ (getGasPrice chainHappy = .ok (10 ^ 9)
      ∧ NetCall.sendTransaction addrA 100000000000000000 (10 ^ 9) ∈
          (distributeGas testCfg chainHappy isAddressTest addrW addrA none).2) := by
  refine ⟨rfl, ?_⟩
  exact gas_price_absent_default testCfg chainHappy isAddressTest addrW addrA none
    100000000000000000 0 5000000000000000 1000000000000000000 "0xh1"
    (by rfl) (by rfl) (by rfl) (by rfl) (by rfl) (by decide) (by rfl) (by decide)
    (by decide) (by rfl)

/-- Claim C9: the empty string is falsy in `amount || config.GAS_AMOUNT`, so a
call with amount "" is extensionally the same call as one with no amount at
all — the configured default amount is used and no amount-parse failure can
arise from the empty string itself. -/
theorem distributeGas_empty_amount (cfg : Config) (ch : Chain)
    (isAddress : String → Bool) (wa ra : String) :
    distributeGas cfg ch isAddress wa ra (some "") =
      distributeGas cfg ch isAddress wa ra none := by
  unfold distributeGas
  simp [resolveGasAmount]

/-- Evaluation shape of the schema amount refine on a supplied non-empty
string: it is the decision of the exact comparison `0 < parsed ∧ parsed ≤ 10`. -/
theorem gasAmountCheck_eval (v : String) (x : ℚ) (hne : ¬ v = "")
    (hp : parseFloatQ v = some x) :
    gasAmountCheck (some v) = decide (0 < x ∧ x ≤ 10) := by
  simp only [gasAmountCheck]
  rw [if_neg hne, hp]

/-- Claim C10: the core enforces no upper bound on the caller-supplied amount —
for every parseable positive amount string whose value passes the balance
gates, the pipeline reaches submission with exactly the parsed value (the
witness instantiates this at "999", far above the documented maximum of 10) —
while the (0, 10] bound lives only in the upstream `gasDistributionSchema`
amount refine, shown here rejecting "999" and "0" and accepting "10". -/
theorem distributeGas_no_upper_bound (cfg : Config) (ch : Chain)
    (isAddress : String → Bool) (wa ra : String) (amtStr : String)
    (v rb thr wb : Wei) (fd : Option Wei) (hsh : String)
    (haddr : isAddress ra = true)
    (hamt : parseEther amtStr = some v)
    (hpos : 0 < v)
    (hbal : ch.balanceOf ra = .ok rb)
    (hthr : parseEther (resolveThreshold cfg) = some thr)
    (hlt : rb < thr)
    (hwb : ch.balanceOf wa = .ok wb)
    (hv : v ≤ wb)
    (hns : ¬ strToLower ra = strToLower wa)
    (hfee : ch.feeData = .ok fd)
    (hsend : ch.sendTx = .ok hsh) :
    (NetCall.sendTransaction ra v (resolvedGasPrice fd) ∈
        (distributeGas cfg ch isAddress wa ra (some amtStr)).2)
    ∧ gasAmountCheck (some "999") = false
    ∧ gasAmountCheck (some "10") = true
    ∧ gasAmountCheck (some "0") = false := by
  have h999 : gasAmountCheck (some "999") = false := by
    rw [gasAmountCheck_eval "999" (((999 : Nat) : ℚ) + ((0 : Nat) : ℚ) / (10 : ℚ) ^ 0)
      (by decide) rfl]
    exact decide_eq_false (by norm_num)
  have h10 : gasAmountCheck (some "10") = true := by
    rw [gasAmountCheck_eval "10" (((10 : Nat) : ℚ) + ((0 : Nat) : ℚ) / (10 : ℚ) ^ 0)
      (by decide) rfl]
    exact decide_eq_true (by norm_num)
  have h0 : gasAmountCheck (some "0") = false := by
    rw [gasAmountCheck_eval "0" (((0 : Nat) : ℚ) + ((0 : Nat) : ℚ) / (10 : ℚ) ^ 0)
      (by decide) rfl]
    exact decide_eq_false (by norm_num)
  refine ⟨?_, h999, h10, h0⟩
  have hne : ¬ amtStr = "" := by
    intro h
    rw [h] at hamt
    have h0 : parseEther "" = none := rfl
    rw [h0] at hamt
    cases hamt
  have hres : resolveGasAmount cfg (some amtStr) = amtStr := by
    simp [resolveGasAmount, hne]
  cases hwait : ch.waitTx with
  | thrown m =>
    unfold distributeGas distributeGasResolved
    simp [hres, haddr, hamt, hbal, hthr, not_le_of_lt hlt, hwb, not_lt_of_le hv, hns,
      hfee, hsend, hwait]
  | noReceipt =>
    unfold distributeGas distributeGasResolved
    simp [hres, haddr, hamt, hbal, hthr, not_le_of_lt hlt, hwb, not_lt_of_le hv, hns,
      hfee, hsend, hwait]
  | confirmed r =>
    unfold distributeGas distributeGasResolved
    simp [hres, haddr, hamt, hbal, hthr, not_le_of_lt hlt, hwb, not_lt_of_le hv, hns,
      hfee, hsend, hwait, apply_ite]

/-- Witness for C10 (also spec Scenario E): amount "999" converts exactly to
999 × 10^18 wei with no rounding loss, passes the core gates against a
1000 FAIR wallet, and is submitted — while the upstream schema rejects it. -/
theorem distributeGas_no_upper_bound_witness :
    parseEther "999" = some 999000000000000000000
    ∧ (0 : Wei) < 999000000000000000000
    ∧ (NetCall.sendTransaction addrA 999000000000000000000 2000000000 ∈
        (distributeGas testCfg chainRich isAddressTest addrW addrA (some "999")).2)
    ∧ gasAmountCheck (some "999") = false := by
  have h := distributeGas_no_upper_bound testCfg chainRich isAddressTest addrW addrA "999"
    999000000000000000000 0 5000000000000000 1000000000000000000000 (some 2000000000)
    "0xh1"
    (by rfl) (by rfl) (by decide) (by rfl) (by rfl) (by decide) (by rfl) (by decide)
    (by decide) (by rfl) (by rfl)
  exact ⟨by rfl, by decide, h.1, h.2.1⟩

end APIDistribution
